import Mathlib

/-!
Shallow embedding of the chat client's state-store logic
(components Chat.tsx, DocumentUpload.tsx, types.ts).

JS strings are modelled as Lean `String` (character-level), `Date`
timestamps as `Nat`, nullable fields as `Option`, and the outcome of an
awaited `fetch` as `Except Unit r`: `Except.error ()` is a transport-level
throw, `Except.ok r` a resolved response carrying the fields the code
reads (its `ok` status flag and any body fields used).
-/

set_option autoImplicit false

namespace ChatApp

/-- Message role: the TS union type `'user' | 'assistant'`. -/
inductive Role where
  | user
  | assistant
deriving DecidableEq, Repr

/-- types.ts `Message`: role, content, optional timestamp. -/
structure Message where
  role : Role
  content : String
  timestamp : Option String := none
deriving DecidableEq, Repr

/-- types.ts `Chat`: id, title, messages, timestamp, nullable folderId. -/
structure Chat where
  id : String
  title : String
  messages : List Message
  timestamp : Nat
  folderId : Option String
deriving DecidableEq, Repr

/-- types.ts `Folder`: id, name, timestamp, and the optional field
`isExpanded?: boolean` (absent is modelled as `none`). -/
structure Folder where
  id : String
  name : String
  timestamp : Nat
  isExpanded : Option Bool
deriving DecidableEq, Repr

/-- types.ts `ChatStore`: the aggregate root. -/
structure ChatStore where
  chats : List Chat
  folders : List Folder
  currentChatId : Option String
  currentFolderId : Option String
deriving DecidableEq, Repr

/-- The empty store returned by the state initializer when nothing was
found in localStorage (Chat.tsx lines 37-42). -/
def emptyStore : ChatStore :=
  { chats := [], folders := [], currentChatId := none, currentFolderId := none }

/-- The result of an awaited `fetch` whose response the code may inspect:
`ok` is `response.ok`, `response` the `data.response` field of the JSON
body (read only on the send-message path). -/
structure FetchResult where
  ok : Bool
  response : String
deriving DecidableEq, Repr

/-- JS `String.prototype.trim`: strip whitespace from both ends,
modelled at character level with structural recursion. -/
def jsTrim (s : String) : String :=
  String.mk (((s.data.dropWhile Char.isWhitespace).reverse.dropWhile
    Char.isWhitespace).reverse)

/-- Chat.tsx `createNewFolder`: no-op when the typed name is
empty/whitespace, else appends a folder with a freshly generated id
(`Date.now().toString()`, passed in as `newId`), the untrimmed name, and
`isExpanded = true`. -/
def createNewFolder (newFolderName : String) (newId : String) (now : Nat)
    (prev : ChatStore) : ChatStore :=
  if jsTrim newFolderName = "" then prev
  else
    { prev with
      folders := prev.folders ++
        [{ id := newId, name := newFolderName, timestamp := now, isExpanded := some true }] }

/-- Chat.tsx `createNewChat`: prepends a chat with a generated id, title
"New Chat", empty messages, given folderId, and selects it. -/
def createNewChat (newId : String) (now : Nat) (folderId : Option String)
    (prev : ChatStore) : ChatStore :=
  { prev with
    chats :=
      { id := newId, title := "New Chat", messages := [], timestamp := now,
        folderId := folderId } :: prev.chats,
    currentChatId := some newId }

/-- The sidebar click handler: sets `currentChatId` with no validation. -/
def selectChat (chatId : String) (prev : ChatStore) : ChatStore :=
  { prev with currentChatId := some chatId }

/-- Chat.tsx `getCurrentChat`: the guard `if (!store.currentChatId)`
returns `undefined` on a FALSY id — null or the empty string — else the
first chat whose id equals `currentChatId`. -/
def getCurrentChat (store : ChatStore) : Option Chat :=
  match store.currentChatId with
  | none => none
  | some cid =>
    if cid = "" then none
    else store.chats.find? (fun chat => chat.id = cid)

/-- The title derivation inside Chat.tsx `updateChatTitle`:
`firstMessage.slice(0, 30) + (firstMessage.length > 30 ? "..." : "")`. -/
def deriveTitle (firstMessage : String) : String :=
  String.mk (firstMessage.data.take 30) ++
    (if firstMessage.data.length > 30 then "..." else "")

/-- Chat.tsx `updateChatTitle`: rewrites the addressed chat's title to the
derived title. -/
def updateChatTitle (chatId : String) (firstMessage : String)
    (prev : ChatStore) : ChatStore :=
  { prev with
    chats := prev.chats.map (fun chat =>
      if chat.id = chatId then { chat with title := deriveTitle firstMessage }
      else chat) }

/-- The fixed apology string appended as the assistant message on a failed
send (Chat.tsx line 197). -/
def apologyText : String := "Sorry, there was an error processing your request."

/-- The snapshot update both branches of `handleSubmit` perform: append a
user message and an assistant message, in that order and in one update, to
every chat whose id equals `store.currentChatId`. -/
def appendExchange (currentChatId : Option String) (userText assistantText : String)
    (prev : ChatStore) : ChatStore :=
  { prev with
    chats := prev.chats.map (fun chat =>
      if some chat.id = currentChatId then
        { chat with
          messages := chat.messages ++
            [{ role := Role.user, content := userText },
             { role := Role.assistant, content := assistantText }] }
      else chat) }

/-- Chat.tsx `handleSubmit` as a transition on `(store, input)`: the guard
returns both unchanged when the trimmed input is empty or no current chat
resolves; otherwise the awaited fetch `outcome` decides the branch. A
response with `ok = false` is thrown (`if (!response.ok) throw ...`) and
lands in the same catch as a transport failure, appending the apology
exchange. On success the exchange with `data.response` is appended, and
when the chat had no messages its title is derived from the input. Both
terminal branches clear the input (`setInput("")`). -/
def handleSubmit (input : String) (outcome : Except Unit FetchResult)
    (prev : ChatStore) : ChatStore × String :=
  if jsTrim input = "" then (prev, input)
  else
    match getCurrentChat prev with
    | none => (prev, input)
    | some currentChat =>
      let isFirstMessage := currentChat.messages.length = 0
      match outcome with
      | Except.ok data =>
        if data.ok then
          let s1 := appendExchange prev.currentChatId input data.response prev
          (if isFirstMessage then updateChatTitle (prev.currentChatId.getD "") input s1
           else s1, "")
        else
          (appendExchange prev.currentChatId input apologyText prev, "")
      | Except.error _ =>
        (appendExchange prev.currentChatId input apologyText prev, "")

/-- The snapshot update of Chat.tsx `deleteChat`: filter the chat out and,
when it was selected, set `currentChatId` to `prev.chats[0]?.id || null` —
the head of the PRE-deletion list, with a falsy (empty) id coerced to
null. -/
def applyDeleteChat (chatId : String) (prev : ChatStore) : ChatStore :=
  { prev with
    chats := prev.chats.filter (fun chat => chat.id ≠ chatId),
    currentChatId :=
      if some chatId = prev.currentChatId then
        match prev.chats.head? with
        | none => none
        | some c => if c.id = "" then none else some c.id
      else prev.currentChatId }

/-- Chat.tsx `deleteChat`: the DELETE fetch is awaited inside a try; a
transport throw skips the state update (logged only), while a resolved
response of ANY status — its `ok` flag is never inspected — proceeds to
the snapshot update. -/
def deleteChat (outcome : Except Unit FetchResult) (chatId : String)
    (prev : ChatStore) : ChatStore :=
  match outcome with
  | Except.error _ => prev
  | Except.ok _ => applyDeleteChat chatId prev

/-- The snapshot update of Chat.tsx `deleteFolder`: remove the folder and
null the `folderId` of every chat filed under it. -/
def applyDeleteFolder (folderId : String) (prev : ChatStore) : ChatStore :=
  { prev with
    folders := prev.folders.filter (fun f => f.id ≠ folderId),
    chats := prev.chats.map (fun chat =>
      if chat.folderId = some folderId then { chat with folderId := none }
      else chat) }

/-- Chat.tsx `deleteFolder`: same fetch discipline as `deleteChat` — the
update runs on any resolved response regardless of status, and is skipped
only on a transport throw. -/
def deleteFolder (outcome : Except Unit FetchResult) (folderId : String)
    (prev : ChatStore) : ChatStore :=
  match outcome with
  | Except.error _ => prev
  | Except.ok _ => applyDeleteFolder folderId prev

/-- Chat.tsx `toggleFolder`: flips `isExpanded` of the addressed folder;
JS `!f.isExpanded` treats an absent field as falsy, so the new value is
the negation of `getD false` and is always defined. -/
def toggleFolder (folderId : String) (prev : ChatStore) : ChatStore :=
  { prev with
    folders := prev.folders.map (fun f =>
      if f.id = folderId then { f with isExpanded := some (!(f.isExpanded.getD false)) }
      else f) }

/-- The folder-name input's onChange handler: rewrites the addressed
folder's name (no validation). -/
def renameFolder (folderId : String) (name : String) (prev : ChatStore) : ChatStore :=
  { prev with
    folders := prev.folders.map (fun f =>
      if f.id = folderId then { f with name := name } else f) }

/-- The snapshot update of Chat.tsx `handleDrop`: unconditionally reassign
the dragged chat's `folderId` to the drop target (possibly null). -/
def moveChat (draggedChatId : String) (targetFolderId : Option String)
    (prev : ChatStore) : ChatStore :=
  { prev with
    chats := prev.chats.map (fun chat =>
      if chat.id = draggedChatId then { chat with folderId := targetFolderId }
      else chat) }

/-- The persisted `chatStore` slot as the code can observe it: `none` when
`localStorage.getItem` returns null, `some none` when a string is present
but `JSON.parse` throws on it, `some (some st)` when it parses to a store
value. -/
def PersistedSlot : Type := Option (Option ChatStore)

/-- The `useState` initializer (Chat.tsx lines 26-43): absent slot or a
parse throw (caught by the surrounding try/catch) both fall back to the
empty store. -/
def initStore : PersistedSlot → ChatStore
  | none => emptyStore
  | some none => emptyStore
  | some (some st) => st

/-- The mount effect (Chat.tsx lines 52-58): re-reads the slot and calls
`JSON.parse` with NO try/catch, so a slot whose contents fail to parse
makes the effect throw (`Except.error ()`); otherwise the parsed store
replaces the current one, or the state is left alone when the slot is
absent. -/
def mountEffect : PersistedSlot → ChatStore → Except Unit ChatStore
  | none, st => Except.ok st
  | some none, _ => Except.error ()
  | some (some st2), _ => Except.ok st2

/-- Startup hydration as a whole: the initializer runs, then the mount
effect runs on its result. -/
def startupHydration (slot : PersistedSlot) : Except Unit ChatStore :=
  mountEffect slot (initStore slot)

/-- DocumentUpload.tsx `UploadError`: `{filename, error}` entry of the
per-file error list. -/
structure UploadError where
  filename : String
  error : String
deriving DecidableEq, Repr

/-- A resolved upload response: its `ok` status and the `detail` field of
its JSON error body (`none` when absent). -/
structure UploadResponse where
  ok : Bool
  detail : Option String
deriving DecidableEq, Repr

/-- The `{current, total}` progress counter. -/
structure Progress where
  current : Nat
  total : Nat
deriving DecidableEq, Repr

/-- The component state `handleFileUpload` touches: the `uploading` flag,
the error list, the progress counter, the number of `loadDocuments`
refreshes issued so far, and the file input's value. -/
structure UploadState where
  uploading : Bool
  uploadErrors : List UploadError
  progress : Option Progress
  refreshCount : Nat
  inputValue : String
deriving DecidableEq, Repr

/-- The error message recorded for a non-ok upload response:
`errorData.detail || "Upload failed"` (missing or empty detail is falsy). -/
def uploadErrorMessage (detail : Option String) : String :=
  match detail with
  | some d => if d = "" then "Upload failed" else d
  | none => "Upload failed"

/-- One iteration of the upload loop (DocumentUpload.tsx lines 50-88): a
non-ok response appends `{file.name, detail-or-default}` to the error list
and continues; a transport throw appends `{file.name, "Upload failed"}`;
a success advances the progress counter's `current`. -/
def uploadStep (st : UploadState) (file : String × Except Unit UploadResponse) :
    UploadState :=
  match file.2 with
  | Except.ok resp =>
    if resp.ok then
      { st with progress := st.progress.map (fun p => { p with current := p.current + 1 }) }
    else
      { st with uploadErrors := st.uploadErrors ++ [⟨file.1, uploadErrorMessage resp.detail⟩] }
  | Except.error _ =>
    { st with uploadErrors := st.uploadErrors ++ [⟨file.1, "Upload failed"⟩] }

/-- DocumentUpload.tsx `handleFileUpload` on a batch, each file given with
the outcome of its fetch: the guard `!e.target.files?.length || !folderId`
returns unchanged when the file list is empty or the folder id is FALSY —
null or the empty string; otherwise `uploading` is set, the error
list cleared, progress initialised to `{0, total}`, the loop runs, the
document list is refreshed exactly once after the loop, and the `finally`
block clears `uploading`, the progress indicator and the file input. The
second component is the progress value the counter reached at the end of
the loop, before the cleanup resets it. -/
def handleFileUpload (folderId : Option String)
    (files : List (String × Except Unit UploadResponse))
    (st0 : UploadState) : UploadState × Option Progress :=
  if files.isEmpty || folderId.getD "" = "" then (st0, st0.progress)
  else
    let started : UploadState :=
      { st0 with uploading := true, uploadErrors := [],
                 progress := some { current := 0, total := files.length } }
    let looped := files.foldl uploadStep started
    let refreshed := { looped with refreshCount := looped.refreshCount + 1 }
    ({ refreshed with uploading := false, progress := none, inputValue := "" },
     looped.progress)

/-- A fetch outcome counting as an upload success: resolved with `ok`. -/
def uploadSucceeds (o : Except Unit UploadResponse) : Bool :=
  match o with
  | Except.ok r => r.ok
  | Except.error _ => false

/-- A fetch outcome counting as an upload failure: non-success response
status or transport-level throw. -/
def uploadFails (o : Except Unit UploadResponse) : Bool :=
  !(uploadSucceeds o)

/-- Uniqueness of chat ids across the store (spec section 3 invariant). -/
def chatIdsUnique (store : ChatStore) : Prop :=
  (store.chats.map Chat.id).Nodup

instance (store : ChatStore) : Decidable (chatIdsUnique store) := by
  unfold chatIdsUnique; infer_instance

/-- A concrete unfiled chat used as sample data in witnesses. -/
def sampleChatA : Chat :=
  { id := "1", title := "New Chat", messages := [], timestamp := 0, folderId := none }

/-- A concrete filed chat used as sample data in witnesses. -/
def sampleChatB : Chat :=
  { id := "2", title := "New Chat", messages := [], timestamp := 0, folderId := some "f" }

/-- A concrete folder used as sample data in witnesses. -/
def sampleFolder : Folder :=
  { id := "f", name := "F", timestamp := 0, isExpanded := some true }

/-- A concrete store used as sample data in witnesses. -/
def sampleStore : ChatStore :=
  { chats := [sampleChatA, sampleChatB], folders := [sampleFolder],
    currentChatId := some "1", currentFolderId := none }

/-- Mapping a field projection over a list transformed by a
field-preserving rewrite leaves the projections unchanged. -/
lemma map_field_eq {α β : Type} (g : α → α) (fld : α → β)
    (h : ∀ a, fld (g a) = fld a) (l : List α) :
    (l.map g).map fld = l.map fld := by
  induction l with
  | nil => rfl
  | cons a l ih => simp [h, ih]

/-- Applying a map twice is the identity when the function is an
involution-to-fixed-point on every element of the list. -/
lemma map_map_id_of_invol {α : Type} (g : α → α) (l : List α)
    (h : ∀ a ∈ l, g (g a) = a) :
    (l.map g).map g = l := by
  induction l with
  | nil => rfl
  | cons a l ih =>
      simp only [List.map_cons]
      rw [h a (List.mem_cons_self a l), ih (fun a' ha' => h a' (List.mem_cons_of_mem _ ha'))]

/-- find? commutes with a map that preserves the predicate. -/
lemma find_map_pres {α : Type} (p : α → Bool) (g : α → α)
    (hp : ∀ a, p (g a) = p a) (l : List α) (c : α)
    (h : l.find? p = some c) :
    (l.map g).find? p = some (g c) := by
  induction l with
  | nil => simp at h
  | cons a l ih =>
      by_cases ha : p a = true
      · rw [List.find?_cons_of_pos _ ha] at h
        injection h with h2
        subst h2
        rw [List.map_cons, List.find?_cons_of_pos _ ((hp a).trans ha)]
      · have ha' : ¬ p a = true := ha
        rw [List.find?_cons_of_neg _ ha'] at h
        rw [List.map_cons, List.find?_cons_of_neg _ (by rw [hp a]; exact ha')]
        exact ih h

/-- The data of an appended string is the appended data. -/
lemma string_data_append (a b : String) : (a ++ b).data = a.data ++ b.data := rfl

/-- Strings with equal data are equal. -/
lemma string_eq_of_data {a b : String} (h : a.data = b.data) : a = b := by
  cases a; cases b; exact congrArg String.mk h

/-- C1: deleteChat on the currently selected chat is claimed to reselect
the first remaining chat (or null if none remain). The code instead reads
`prev.chats[0]` from the PRE-deletion list: deleting the selected head
chat "1" of a two-chat store removes it from the list yet leaves
`currentChatId = "1"` — a dangling id — instead of the first remaining
chat "2"; and deleting the selected sole chat "1" leaves
`currentChatId = "1"` instead of null. -/
theorem deleteChat_current_head_dangling :
    (deleteChat (Except.ok ⟨true, ""⟩) "1" sampleStore).chats.map Chat.id = ["2"] ∧
    (deleteChat (Except.ok ⟨true, ""⟩) "1" sampleStore).currentChatId = some "1" ∧
    (deleteChat (Except.ok ⟨true, ""⟩) "1"
        { chats := [sampleChatA], folders := [], currentChatId := some "1",
          currentFolderId := none }).chats = [] ∧
    (deleteChat (Except.ok ⟨true, ""⟩) "1"
        { chats := [sampleChatA], folders := [], currentChatId := some "1",
          currentFolderId := none }).currentChatId = some "1" := by
  decide

/-- C2 counterexample: a resolved delete response with a non-success
status (`ok = false`) does NOT leave the snapshot unchanged — the chat is
removed anyway, because neither delete handler ever inspects
`response.ok`. -/
theorem deleteChat_non_success_status_mutates :
    deleteChat (Except.ok ⟨false, ""⟩) "2" sampleStore ≠ sampleStore := by
  decide

/-- C2 (amended): a transport-level failure of the remote delete leaves
the snapshot unchanged (and, the handlers being total, is absorbed rather
than propagated); a resolved response is never inspected for status, so
even with `ok = false` the chat is filtered out and the folder removed,
exactly as on success. -/
theorem delete_failure_behavior (s : ChatStore) (cid fid : String)
    (r : FetchResult) (hr : r.ok = false) :
    deleteChat (Except.error ()) cid s = s ∧
    deleteFolder (Except.error ()) fid s = s ∧
    (deleteChat (Except.ok r) cid s).chats = s.chats.filter (fun c => c.id ≠ cid) ∧
    ∀ f ∈ (deleteFolder (Except.ok r) fid s).folders, f.id ≠ fid := by
  refine ⟨rfl, rfl, rfl, ?_⟩
  intro f hf
  simp only [deleteFolder, applyDeleteFolder, List.mem_filter] at hf
  simpa using hf.2

/-- C2 witness: the amended behaviour at concrete inputs. -/
theorem delete_failure_behavior_witness :
    deleteChat (Except.error ()) "1" sampleStore = sampleStore ∧
    (deleteChat (Except.ok ⟨false, ""⟩) "1" sampleStore).chats =
      sampleStore.chats.filter (fun c => c.id ≠ "1") :=
  ⟨(delete_failure_behavior sampleStore "1" "f" ⟨false, ""⟩ rfl).1,
   (delete_failure_behavior sampleStore "1" "f" ⟨false, ""⟩ rfl).2.2.1⟩

/-- C3: the useState initializer does fall back to the empty store on an
absent or unparseable slot, but the mount effect re-parses the slot with
no try/catch, so startup as a whole throws on a present-but-unparseable
slot (`some none`) instead of continuing with the empty store; only an
absent slot reaches the empty store safely. -/
theorem startupHydration_throws_on_unparseable_slot :
    initStore (some none) = emptyStore ∧
    initStore none = emptyStore ∧
    startupHydration (some none) = Except.error () ∧
    startupHydration none = Except.ok emptyStore := by
  exact ⟨rfl, rfl, rfl, rfl⟩

/-- C5: a successful deleteFolder(F) removes F from the folder list,
keeps every other folder, nulls the folderId of every chat filed under F
while keeping the chat's other fields, leaves every other chat untouched,
preserves every chat's messages, id and title (and list order), and
leaves both selection ids unchanged. -/
theorem deleteFolder_success_spec (s : ChatStore) (fid : String) (r : FetchResult) :
    (∀ f ∈ (deleteFolder (Except.ok r) fid s).folders, f.id ≠ fid) ∧
    (∀ f ∈ s.folders, f.id ≠ fid → f ∈ (deleteFolder (Except.ok r) fid s).folders) ∧
    (∀ c ∈ (deleteFolder (Except.ok r) fid s).chats, c.folderId ≠ some fid) ∧
    (∀ c ∈ s.chats, c.folderId = some fid →
      { c with folderId := none } ∈ (deleteFolder (Except.ok r) fid s).chats) ∧
    (∀ c ∈ s.chats, c.folderId ≠ some fid → c ∈ (deleteFolder (Except.ok r) fid s).chats) ∧
    (deleteFolder (Except.ok r) fid s).chats.map Chat.messages = s.chats.map Chat.messages ∧
    (deleteFolder (Except.ok r) fid s).chats.map Chat.id = s.chats.map Chat.id ∧
    (deleteFolder (Except.ok r) fid s).chats.map Chat.title = s.chats.map Chat.title ∧
    (deleteFolder (Except.ok r) fid s).currentChatId = s.currentChatId ∧
    (deleteFolder (Except.ok r) fid s).currentFolderId = s.currentFolderId := by
  refine ⟨?_, ?_, ?_, ?_, ?_, ?_, ?_, ?_, rfl, rfl⟩
  · intro f hf
    simp only [deleteFolder, applyDeleteFolder, List.mem_filter] at hf
    simpa using hf.2
  · intro f hf hne
    simp only [deleteFolder, applyDeleteFolder, List.mem_filter]
    exact ⟨hf, by simpa using hne⟩
  · intro c hc
    simp only [deleteFolder, applyDeleteFolder, List.mem_map] at hc
    obtain ⟨a, _, rfl⟩ := hc
    by_cases h : a.folderId = some fid <;> simp [h]
  · intro c hc h
    simp only [deleteFolder, applyDeleteFolder]
    exact List.mem_map.mpr ⟨c, hc, by simp [h]⟩
  · intro c hc h
    simp only [deleteFolder, applyDeleteFolder]
    exact List.mem_map.mpr ⟨c, hc, by simp [h]⟩
  · exact map_field_eq _ Chat.messages
      (fun c => by by_cases h : c.folderId = some fid <;> simp [h]) s.chats
  · exact map_field_eq _ Chat.id
      (fun c => by by_cases h : c.folderId = some fid <;> simp [h]) s.chats
  · exact map_field_eq _ Chat.title
      (fun c => by by_cases h : c.folderId = some fid <;> simp [h]) s.chats

/-- C5 witness: the folder-deletion postconditions at concrete inputs. -/
theorem deleteFolder_success_spec_witness :
    (∀ f ∈ (deleteFolder (Except.ok ⟨true, ""⟩) "f" sampleStore).folders, f.id ≠ "f") ∧
    (deleteFolder (Except.ok ⟨true, ""⟩) "f" sampleStore).chats.map Chat.messages =
      sampleStore.chats.map Chat.messages :=
  ⟨(deleteFolder_success_spec sampleStore "f" ⟨true, ""⟩).1,
   (deleteFolder_success_spec sampleStore "f" ⟨true, ""⟩).2.2.2.2.2.1⟩

/-- C8: the moveChat snapshot update is idempotent — applying it twice
for the same chat id and target folder yields the same snapshot as
applying it once. -/
theorem moveChat_idempotent (s : ChatStore) (cid : String) (t : Option String) :
    moveChat cid t (moveChat cid t s) = moveChat cid t s := by
  cases s with
  | mk chats folders ccid cfid =>
      simp only [moveChat, ChatStore.mk.injEq, and_true, true_and]
      induction chats with
      | nil => rfl
      | cons c l ih =>
          simp only [List.map_cons, List.cons.injEq]
          refine ⟨?_, ih⟩
          by_cases h : c.id = cid <;> simp [h]

/-- The toggle rewrite applied twice restores a folder whose `isExpanded`
field is defined (for the addressed id) or which is not addressed. -/
lemma toggle_fun_invol (fid : String) (f : Folder)
    (hf : f.id = fid → f.isExpanded.isSome = true) :
    (fun fl => if fl.id = fid then
        { fl with isExpanded := some (!(fl.isExpanded.getD false)) } else fl)
      ((fun fl => if fl.id = fid then
        { fl with isExpanded := some (!(fl.isExpanded.getD false)) } else fl) f) = f := by
  cases f with
  | mk i n ts exp =>
      by_cases h : i = fid
      · subst h
        cases exp with
        | none => have hs := hf rfl; simp at hs
        | some b => simp [Bool.not_not]
      · simp [h]

/-- C10 counterexample: on a folder whose optional `isExpanded` field is
absent, toggling twice yields `isExpanded = some false`, not the original
snapshot — two applications are not the identity on every store. -/
theorem toggleFolder_twice_absent_field :
    toggleFolder "f" (toggleFolder "f"
      { chats := [], folders := [{ id := "f", name := "F", timestamp := 0, isExpanded := none }],
        currentChatId := none, currentFolderId := none }) ≠
      { chats := [], folders := [{ id := "f", name := "F", timestamp := 0, isExpanded := none }],
        currentChatId := none, currentFolderId := none } := by
  decide

/-- C10 (amended): provided every folder carrying the toggled id has its
optional `isExpanded` field present (as is the case for every folder the
code itself creates), toggleFolder applied twice restores the original
snapshot; and a single application never touches the chats, either
selection id, any folder with a different id, or any folder field other
than `isExpanded`. -/
theorem toggleFolder_involutive_and_local (s : ChatStore) (fid : String)
    (h : ∀ f ∈ s.folders, f.id = fid → f.isExpanded.isSome = true) :
    toggleFolder fid (toggleFolder fid s) = s ∧
    (toggleFolder fid s).chats = s.chats ∧
    (toggleFolder fid s).currentChatId = s.currentChatId ∧
    (toggleFolder fid s).currentFolderId = s.currentFolderId ∧
    (toggleFolder fid s).folders.map (fun f => (f.id, f.name, f.timestamp)) =
      s.folders.map (fun f => (f.id, f.name, f.timestamp)) ∧
    (∀ f ∈ s.folders, f.id ≠ fid → f ∈ (toggleFolder fid s).folders) := by
  refine ⟨?_, rfl, rfl, rfl, ?_, ?_⟩
  · cases s with
    | mk chats folders ccid cfid =>
        simp only [toggleFolder, ChatStore.mk.injEq, and_true, true_and]
        exact map_map_id_of_invol _ folders (fun f hf => toggle_fun_invol fid f (h f hf))
  · simp only [toggleFolder]
    exact map_field_eq
      (fun f => if f.id = fid then
        { f with isExpanded := some (!(f.isExpanded.getD false)) } else f)
      (fun f => (f.id, f.name, f.timestamp))
      (fun f => by by_cases hid : f.id = fid <;> simp [hid]) s.folders
  · intro f hf hne
    simp only [toggleFolder]
    exact List.mem_map.mpr ⟨f, hf, by simp [hne]⟩

/-- C10 witness: double toggle at a concrete store whose folder has a
defined `isExpanded`. -/
theorem toggleFolder_involutive_witness :
    toggleFolder "f" (toggleFolder "f" sampleStore) = sampleStore :=
  (toggleFolder_involutive_and_local sampleStore "f" (by decide)).1

/-- C7: deriveTitle is pure and total; its output never exceeds 33
characters (30 plus the three-character ellipsis marker), equals the
input unmodified when the input has at most 30 characters, and otherwise
is the first 30 characters followed by the marker. -/
theorem deriveTitle_spec (s : String) :
    (deriveTitle s).length ≤ 33 ∧
    (s.length ≤ 30 → deriveTitle s = s) ∧
    (30 < s.length → deriveTitle s = String.mk (s.data.take 30) ++ "...") := by
  have hlen : ∀ t : String, t.length = t.data.length := fun t => rfl
  refine ⟨?_, ?_, ?_⟩
  · rw [deriveTitle]
    by_cases h : s.data.length > 30
    · rw [if_pos h, hlen, string_data_append, List.length_append, List.length_take,
        show ("..." : String).data.length = 3 by decide]
      omega
    · rw [if_neg h, hlen, string_data_append, List.length_append, List.length_take,
        show ("" : String).data.length = 0 by decide]
      omega
  · intro hle
    rw [hlen] at hle
    rw [deriveTitle, if_neg (by omega)]
    refine string_eq_of_data ?_
    rw [string_data_append]
    simp [List.take_of_length_le hle]
  · intro hgt
    rw [hlen] at hgt
    rw [deriveTitle, if_pos (by omega)]

/-- C7 witness: a 31-character input is truncated to its first 30
characters plus the ellipsis marker, making 33 characters in all. -/
theorem deriveTitle_spec_witness :
    deriveTitle "abcdefghijklmnopqrstuvwxyz01234" =
      String.mk ("abcdefghijklmnopqrstuvwxyz01234".data.take 30) ++ "..." :=
  (deriveTitle_spec "abcdefghijklmnopqrstuvwxyz01234").2.2 (by decide)

/-- C4: when the send's remote call throws or resolves with a non-success
status, and the trimmed input is non-empty with a current chat resolved,
the transition appends exactly two messages to the current chat in the one
snapshot update — the user message carrying the input unchanged, then the
assistant message carrying the fixed apology string — while every other
chat, every chat id, the folders and the selection are untouched, and the
input field ends cleared. -/
theorem handleSubmit_failure_spec (input : String) (s : ChatStore) (c : Chat)
    (o : Except Unit FetchResult)
    (hne : jsTrim input ≠ "")
    (hc : getCurrentChat s = some c)
    (ho : o = Except.error () ∨ ∃ r, o = Except.ok r ∧ r.ok = false) :
    (handleSubmit input o s).2 = "" ∧
    getCurrentChat (handleSubmit input o s).1 =
      some { c with messages := c.messages ++
        [{ role := Role.user, content := input, timestamp := none },
         { role := Role.assistant, content := apologyText, timestamp := none }] } ∧
    (∀ ch ∈ s.chats, some ch.id ≠ s.currentChatId →
      ch ∈ (handleSubmit input o s).1.chats) ∧
    (handleSubmit input o s).1.chats.map Chat.id = s.chats.map Chat.id ∧
    (handleSubmit input o s).1.folders = s.folders ∧
    (handleSubmit input o s).1.currentChatId = s.currentChatId := by
  have hred : handleSubmit input o s =
      (appendExchange s.currentChatId input apologyText s, "") := by
    rcases ho with rfl | ⟨r, rfl, hr⟩
    · simp [handleSubmit, if_neg hne, hc]
    · simp [handleSubmit, if_neg hne, hc, hr]
  obtain ⟨cid, hcid⟩ : ∃ cid, s.currentChatId = some cid := by
    cases hsc : s.currentChatId with
    | none => simp [getCurrentChat, hsc] at hc
    | some cid => exact ⟨cid, rfl⟩
  have hcid0 : cid ≠ "" := by
    intro h0
    simp [getCurrentChat, hcid, h0] at hc
  have hfind : s.chats.find? (fun ch => ch.id = cid) = some c := by
    simpa [getCurrentChat, hcid, hcid0] using hc
  have hcidc : c.id = cid := by simpa using List.find?_some hfind
  rw [hred]
  refine ⟨rfl, ?_, ?_, ?_, rfl, ?_⟩
  · have hmap := find_map_pres (fun ch => ch.id = cid)
      (fun ch => if some ch.id = s.currentChatId then
        { ch with messages := ch.messages ++
          [{ role := Role.user, content := input, timestamp := none },
           { role := Role.assistant, content := apologyText, timestamp := none }] }
       else ch)
      (fun a => by by_cases hida : some a.id = s.currentChatId <;> simp [hida])
      s.chats c hfind
    rw [hcid] at hmap
    simp only [appendExchange, getCurrentChat, hcid, if_neg hcid0]
    rw [hmap]
    simp [hcidc]
  · intro ch hch hne2
    simp only [appendExchange]
    exact List.mem_map.mpr ⟨ch, hch, by simp [hne2]⟩
  · simp only [appendExchange]
    exact map_field_eq
      (fun ch => if some ch.id = s.currentChatId then
        { ch with messages := ch.messages ++
          [{ role := Role.user, content := input, timestamp := none },
           { role := Role.assistant, content := apologyText, timestamp := none }] }
       else ch)
      Chat.id
      (fun a => by by_cases hida : some a.id = s.currentChatId <;> simp [hida]) s.chats
  · simp [appendExchange, hcid]

/-- C4 witness: a failing send at a concrete store appends the user text
and the apology to the current chat and clears the input. -/
theorem handleSubmit_failure_spec_witness :
    (handleSubmit "hi" (Except.error ()) sampleStore).2 = "" ∧
    getCurrentChat (handleSubmit "hi" (Except.error ()) sampleStore).1 =
      some { sampleChatA with messages :=
        [{ role := Role.user, content := "hi", timestamp := none },
         { role := Role.assistant, content := apologyText, timestamp := none }] } :=
  ⟨(handleSubmit_failure_spec "hi" sampleStore sampleChatA (Except.error ())
      (by decide) (by decide) (Or.inl rfl)).1,
   (handleSubmit_failure_spec "hi" sampleStore sampleChatA (Except.error ())
      (by decide) (by decide) (Or.inl rfl)).2.1⟩

/-- C6 counterexample: the folder id `""` is non-null, yet the guard
`!folderId` treats it as falsy and the handler returns immediately — a
3-file batch whose second file fails leaves the state untouched: no
refresh, no error entry, no progress — contrary to the claim, which
asserts those outcomes for every non-null folder. -/
theorem handleFileUpload_empty_folder_id_noop :
    handleFileUpload (some "")
        [("a.pdf", Except.ok ⟨true, none⟩), ("b.pdf", Except.ok ⟨false, some "too big"⟩),
         ("c.pdf", Except.ok ⟨true, none⟩)]
        { uploading := false, uploadErrors := [], progress := none,
          refreshCount := 0, inputValue := "b" } =
      ({ uploading := false, uploadErrors := [], progress := none,
         refreshCount := 0, inputValue := "b" }, none) := by
  decide

/-- C6 (amended): for a 3-file batch into a folder whose id is truthy —
non-null and non-empty, the empty string being JS-falsy and hitting the
same early return as null — where exactly the second file fails (by
non-success status or transport throw) and the others succeed, the
document-list refresh runs exactly once, the error list holds exactly one
entry naming file 2, the progress counter reaches current 2 of total 3 at
the end of the loop, and the cleanup clears the progress indicator, the
uploading flag and the file input. -/
theorem handleFileUpload_partial_failure (fid f1 f2 f3 : String)
    (o1 o2 o3 : Except Unit UploadResponse)
    (hfid : fid ≠ "")
    (h1 : uploadSucceeds o1 = true)
    (h2 : uploadFails o2 = true)
    (h3 : uploadSucceeds o3 = true)
    (st0 : UploadState) :
    (handleFileUpload (some fid) [(f1, o1), (f2, o2), (f3, o3)] st0).1.refreshCount
        = st0.refreshCount + 1 ∧
    (handleFileUpload (some fid) [(f1, o1), (f2, o2), (f3, o3)] st0).1.uploadErrors.map
        UploadError.filename = [f2] ∧
    (handleFileUpload (some fid) [(f1, o1), (f2, o2), (f3, o3)] st0).2 =
        some { current := 2, total := 3 } ∧
    (handleFileUpload (some fid) [(f1, o1), (f2, o2), (f3, o3)] st0).1.progress = none ∧
    (handleFileUpload (some fid) [(f1, o1), (f2, o2), (f3, o3)] st0).1.uploading = false ∧
    (handleFileUpload (some fid) [(f1, o1), (f2, o2), (f3, o3)] st0).1.inputValue = "" := by
  rcases o1 with e1 | r1
  · simp [uploadSucceeds] at h1
  rcases o3 with e3 | r3
  · simp [uploadSucceeds] at h3
  simp only [uploadSucceeds] at h1 h3
  rcases o2 with e2 | r2
  · simp [handleFileUpload, uploadStep, h1, h3, hfid]
  · simp only [uploadFails, uploadSucceeds, Bool.not_eq_true'] at h2
    simp [handleFileUpload, uploadStep, h1, h2, h3, hfid]

/-- C6 witness: a concrete batch where file 2 gets a non-success response
while files 1 and 3 succeed. -/
theorem handleFileUpload_partial_failure_witness :
    (handleFileUpload (some "f")
        [("a.pdf", Except.ok ⟨true, none⟩), ("b.pdf", Except.ok ⟨false, some "too big"⟩),
         ("c.pdf", Except.ok ⟨true, none⟩)]
        { uploading := false, uploadErrors := [], progress := none,
          refreshCount := 0, inputValue := "b" }).1.uploadErrors.map
      UploadError.filename = ["b.pdf"] ∧
    (handleFileUpload (some "f")
        [("a.pdf", Except.ok ⟨true, none⟩), ("b.pdf", Except.ok ⟨false, some "too big"⟩),
         ("c.pdf", Except.ok ⟨true, none⟩)]
        { uploading := false, uploadErrors := [], progress := none,
          refreshCount := 0, inputValue := "b" }).2 = some { current := 2, total := 3 } :=
  ⟨(handleFileUpload_partial_failure "f" "a.pdf" "b.pdf" "c.pdf"
      (Except.ok ⟨true, none⟩) (Except.ok ⟨false, some "too big"⟩) (Except.ok ⟨true, none⟩)
      (by decide) rfl rfl rfl _).2.1,
   (handleFileUpload_partial_failure "f" "a.pdf" "b.pdf" "c.pdf"
      (Except.ok ⟨true, none⟩) (Except.ok ⟨false, some "too big"⟩) (Except.ok ⟨true, none⟩)
      (by decide) rfl rfl rfl _).2.2.1⟩

/-- C9: every store operation — create/delete chat, create/delete/rename
folder, move chat, toggle expansion, append exchange, select chat —
preserves uniqueness of chat ids, assuming the freshly generated id of a
new chat is distinct from every id already present. -/
theorem storeOps_preserve_chatIdsUnique (s : ChatStore)
    (hs : chatIdsUnique s)
    (newChatId : String) (now : Nat) (newChatFolder : Option String)
    (hfresh : newChatId ∉ s.chats.map Chat.id)
    (folderName newFolderId chatId folderId newName : String)
    (target : Option String) (ccid : Option String)
    (userText assistantText : String)
    (o : Except Unit FetchResult) :
    chatIdsUnique (createNewChat newChatId now newChatFolder s) ∧
    chatIdsUnique (deleteChat o chatId s) ∧
    chatIdsUnique (createNewFolder folderName newFolderId now s) ∧
    chatIdsUnique (deleteFolder o folderId s) ∧
    chatIdsUnique (renameFolder folderId newName s) ∧
    chatIdsUnique (moveChat chatId target s) ∧
    chatIdsUnique (toggleFolder folderId s) ∧
    chatIdsUnique (appendExchange ccid userText assistantText s) ∧
    chatIdsUnique (selectChat chatId s) := by
  refine ⟨?_, ?_, ?_, ?_, hs, ?_, hs, ?_, hs⟩
  · simp only [chatIdsUnique, createNewChat, List.map_cons]
    exact List.nodup_cons.mpr ⟨hfresh, hs⟩
  · cases o with
    | error e => exact hs
    | ok r =>
        simp only [chatIdsUnique, deleteChat, applyDeleteChat]
        exact List.Nodup.sublist (List.Sublist.map Chat.id (List.filter_sublist s.chats)) hs
  · by_cases hn : jsTrim folderName = ""
    · simpa [chatIdsUnique, createNewFolder, hn] using hs
    · simpa [chatIdsUnique, createNewFolder, hn] using hs
  · cases o with
    | error e => exact hs
    | ok r =>
        simp only [chatIdsUnique, deleteFolder, applyDeleteFolder]
        rw [map_field_eq
          (fun chat => if chat.folderId = some folderId then { chat with folderId := none }
            else chat)
          Chat.id
          (fun c => by by_cases h : c.folderId = some folderId <;> simp [h]) s.chats]
        exact hs
  · simp only [chatIdsUnique, moveChat]
    rw [map_field_eq
      (fun chat => if chat.id = chatId then { chat with folderId := target } else chat)
      Chat.id
      (fun c => by by_cases h : c.id = chatId <;> simp [h]) s.chats]
    exact hs
  · simp only [chatIdsUnique, appendExchange]
    rw [map_field_eq
      (fun chat => if some chat.id = ccid then
        { chat with messages := chat.messages ++
          [{ role := Role.user, content := userText, timestamp := none },
           { role := Role.assistant, content := assistantText, timestamp := none }] }
       else chat)
      Chat.id
      (fun c => by by_cases h : some c.id = ccid <;> simp [h]) s.chats]
    exact hs

/-- C9 witness: uniqueness survives a fresh creation and a deletion at a
concrete store whose chat ids are distinct. -/
theorem storeOps_preserve_chatIdsUnique_witness :
    chatIdsUnique (createNewChat "3" 0 none sampleStore) ∧
    chatIdsUnique (deleteChat (Except.ok ⟨true, ""⟩) "1" sampleStore) :=
  ⟨(storeOps_preserve_chatIdsUnique sampleStore (by decide) "3" 0 none (by decide)
      "Name" "nf" "1" "f" "G" none (some "1") "u" "a" (Except.ok ⟨true, ""⟩)).1,
   (storeOps_preserve_chatIdsUnique sampleStore (by decide) "3" 0 none (by decide)
      "Name" "nf" "1" "f" "G" none (some "1") "u" "a" (Except.ok ⟨true, ""⟩)).2.1⟩

end ChatApp
